import Mathlib

/-!
# Verification of the MGTrends trend-endpoint core (src/api/index.py)

A shallow embedding of the tiered caching, rate limiting, fetch chain,
persistence and janitor logic of the Flask endpoint, together with proofs
settling the frozen claims about it.

Modelling conventions:
* Wall-clock timestamps (Python float seconds) are rationals.
* Outcomes of external calls (pytrends, the Google trends JSON endpoint,
  Supabase select / insert / upsert / delete) are inputs to the model:
  `Except Unit rows` where `Except.error` stands for a raised exception and
  `Except.ok` for a normal return carrying the response data.
* The per-request random topic choice is an explicit argument.
* The process-wide GLOBAL_CACHE dict becomes an explicit state record that
  every stateful function threads through.
-/

namespace MGTrends

/-- Timestamps and durations in seconds.  The Python code uses float
`datetime.utcnow().timestamp()` values; every claim settled here concerns
only comparisons and differences of such values against integral-second
configuration constants, so integer seconds model them faithfully. -/
abbrev Time := ℤ

/-- The configuration constants of the module (CACHE_DURATION,
MIN_REQUEST_INTERVAL, MAX_REQUESTS_PER_HOUR, CACHE_CLEANUP_INTERVAL,
DATABASE_CLEANUP_INTERVAL, DB_RETENTION_DAYS and the two feature toggles). -/
structure Config where
  cache_duration : Time
  min_request_interval : Time
  max_requests_per_hour : Nat
  cache_cleanup_interval : Time
  database_cleanup_interval : Time
  db_retention_days : Int
  extended_fields_enabled : Bool
  day_bucket_enabled : Bool
deriving DecidableEq, Repr

/-- The default values from src/api/index.py lines 38-46. -/
def defaultConfig : Config :=
  { cache_duration := 3600
    min_request_interval := 10
    max_requests_per_hour := 100
    cache_cleanup_interval := 7200
    database_cleanup_interval := 43200
    db_retention_days := 30
    extended_fields_enabled := true
    day_bucket_enabled := true }

/-- The mutable GLOBAL_CACHE dict (src/api/index.py lines 30-37), minus the
`start_time` key which no modelled operation reads or writes. -/
structure GlobalCacheState where
  last_request_time : Time
  request_count : Nat
  last_cleanup : Time
  hour_start : Time
  last_db_cleanup : Time
deriving DecidableEq, Repr

/-- An enriched keyword record as built in `get_trends` (lines 365-376); also
the shape of rows coming back from the `trend_keywords` table. -/
structure KeywordRecord where
  keyword : String
  score : Int
  topic : String
  topic_cluster : String
  intent : String
  source : String
  keyword_hash : String
  timestamp : String
  day_bucket : Option String
deriving DecidableEq, Repr

/-- A JSON response body of the trends endpoint.  Python builds plain dicts of
varying key sets; optional fields model absent keys (`cache_hit := none`
means the dict has no "cache_hit" key). -/
structure ResponsePayload where
  source : String
  topic : String
  trend_keywords : List KeywordRecord
  cache_hit : Option String
  cached_from_db : Bool
  timestamp : Option String
deriving DecidableEq, Repr

/-- One CACHE entry: CACHE[topic] = dict with "time" and "data" keys. -/
structure CacheEntry where
  time : Time
  data : ResponsePayload
deriving DecidableEq, Repr

/-- The per-topic memory cache CACHE. -/
abbrev MemCache := String → Option CacheEntry

/-- CACHE[topic] = record with time now and the given data (lines 325, 428). -/
def memCachePut (cache : MemCache) (topic : String) (now : Time) (d : ResponsePayload) :
    MemCache :=
  fun t => if t = topic then some ⟨now, d⟩ else cache t

/-- The memory-cache read of lines 315-317: a hit iff the topic is present
and the entry is younger than CACHE_DURATION; a miss leaves the cache
untouched (no eviction). -/
def memCacheGet (cfg : Config) (cache : MemCache) (topic : String) (now : Time) :
    Option ResponsePayload :=
  match cache topic with
  | some e => if now - e.time < cfg.cache_duration then some e.data else none
  | none => none

/-- The denial message built by `is_rate_limited`: either the
"Too frequent requests. Wait ...s" string carrying the remaining wait, or
"Hourly rate limit exceeded". -/
inductive LimitMsg where
  | tooFrequent (wait : Time)
  | hourlyExceeded
deriving DecidableEq, Repr

/-- Result of the rate-limit check: the `(bool, message)` pair returned by
`is_rate_limited` plus the (possibly window-reset) global state it leaves
behind. -/
structure RateCheckResult where
  limited : Bool
  msg : Option LimitMsg
  g : GlobalCacheState
deriving DecidableEq, Repr

/-- The hourly-counter reset at the top of `is_rate_limited` (lines 164-166):
when more than 3600 s have passed since `hour_start`, zero the counter and
restart the window. -/
def hourWindowReset (now : Time) (g : GlobalCacheState) : GlobalCacheState :=
  if now - g.hour_start > 3600 then
    { g with request_count := 0, hour_start := now }
  else g

/-- `is_rate_limited` (lines 161-173): first resets the hourly counter when
more than 3600 s have passed since `hour_start`, then denies when the last
upstream request is less than `min_request_interval` ago, then denies when
the hourly counter has reached `max_requests_per_hour`. -/
def is_rate_limited (cfg : Config) (now : Time) (g : GlobalCacheState) : RateCheckResult :=
  let g1 := hourWindowReset now g
  let time_since_last := now - g1.last_request_time
  if time_since_last < cfg.min_request_interval then
    ⟨true, some (LimitMsg.tooFrequent (cfg.min_request_interval - time_since_last)), g1⟩
  else if g1.request_count ≥ cfg.max_requests_per_hour then
    ⟨true, some LimitMsg.hourlyExceeded, g1⟩
  else
    ⟨false, none, g1⟩

/-- `cleanup_cache` (lines 131-137): drop every CACHE entry strictly older
than CACHE_DURATION and stamp `last_cleanup`. -/
def cleanup_cache (cfg : Config) (now : Time) (cache : MemCache) (g : GlobalCacheState) :
    MemCache × GlobalCacheState :=
  (fun t =>
      match cache t with
      | some e => if now - e.time > cfg.cache_duration then none else some e
      | none => none,
   { g with last_cleanup := now })

/-- Result of `cleanup_database`: the returned deleted-row count, the state it
leaves behind, and whether a repository delete call was issued at all. -/
structure DbCleanupResult where
  deleted : Nat
  g : GlobalCacheState
  delete_attempted : Bool
deriving DecidableEq, Repr

/-- `cleanup_database` (lines 140-158): a retention of at most 0 returns 0
immediately (before the try/finally, so without touching `last_db_cleanup`);
otherwise the repository delete is attempted, an exception is swallowed
(leaving the count at 0), and the `finally` block stamps `last_db_cleanup`
on success and failure alike.  `delete_result` is the outcome of the
Supabase delete call: `Except.ok rows` is a normal response (the count is
`len(response.data or [])`), `Except.error` a raised exception. -/
def cleanup_database (delete_result : Except Unit (List KeywordRecord))
    (retention_days : Int) (now : Time) (g : GlobalCacheState) : DbCleanupResult :=
  if retention_days ≤ 0 then ⟨0, g, false⟩
  else
    let deleted :=
      match delete_result with
      | .ok rows => rows.length
      | .error _ => 0
    ⟨deleted, { g with last_db_cleanup := now }, true⟩

/-- The dict built by `get_from_database_cache` on a non-empty query result
(line 195): keys source, topic, trend_keywords, cached_from_db — note there
is no "cache_hit" key in it. -/
def databaseCachePayload (topic : String) (rows : List KeywordRecord) : ResponsePayload :=
  { source := "database_cache"
    topic := topic
    trend_keywords := rows
    cache_hit := none
    cached_from_db := true
    timestamp := none }

/-- `get_from_database_cache` (lines 189-198): returns the wrapped rows when
the select succeeded with a non-empty list, and None when the list is empty
or the repository raised (the exception is swallowed). -/
def get_from_database_cache (db_rows : Except Unit (List KeywordRecord)) (topic : String) :
    Option ResponsePayload :=
  match db_rows with
  | .error _ => none
  | .ok rows => if rows.isEmpty then none else some (databaseCachePayload topic rows)

/-- Character-list helper: does the second list start with the first? -/
def charsStartWith : List Char → List Char → Bool
  | [], _ => true
  | _ :: _, [] => false
  | a :: as, b :: bs => (a == b) && charsStartWith as bs

/-- Character-list helper: does the second list contain the first as a
contiguous segment?  Models Python's `t in k` on strings. -/
def charsInclude (needle : List Char) : List Char → Bool
  | [] => charsStartWith needle []
  | c :: rest => charsStartWith needle (c :: rest) || charsInclude needle rest

/-- Python's `needle in hay` substring test. -/
def strContains (hay needle : String) : Bool :=
  charsInclude needle.data hay.data

/-- Python's `str.lower()` restricted to ASCII, which covers every token the
classifier compares against. -/
def lowerString (s : String) : String :=
  String.mk (s.data.map Char.toLower)

/-- The commercial token list of `simple_intent_classifier` (line 209). -/
def commercial_tokens : List String :=
  ["beli", "jual", "jualan", "iklan", "promo", "order", "harga", "toko", "shop",
   "video produk", "tiktok shop", "affiliate"]

/-- The creative token list of `simple_intent_classifier` (line 210). -/
def creative_tokens : List String :=
  ["prompt", "aesthetic", "poster", "midjourney", "art", "desain", "template",
   "keren", "vintage", "surreal", "cyberpunk", "anime"]

/-- `simple_intent_classifier` (lines 201-217): lowercase the keyword, then
first commercial token match wins, then creative, else informational. -/
def simple_intent_classifier (keyword : String) : String :=
  let k := lowerString keyword
  if commercial_tokens.any (fun t => strContains k t) then "commercial"
  else if creative_tokens.any (fun t => strContains k t) then "creative"
  else "informational"

/-- A raw `(keyword, score)` pair as produced by the fetchers and consumed by
the enrichment loop. -/
structure TrendPair where
  keyword : String
  score : Int
deriving DecidableEq, Repr

/-- One row of the pytrends related-queries frame: the "query" column and the
"value" column (`none` models a value `int()` cannot convert, which the loop
skips via `continue`). -/
structure PyRow where
  query : String
  value : Option Int
deriving DecidableEq, Repr

/-- One item of the Google-Trends JSON `rankedKeyword` list. -/
structure GItem where
  query : String
  value : Int
deriving DecidableEq, Repr

instance instDecidableEqExcept {ε α : Type} [DecidableEq ε] [DecidableEq α] :
    DecidableEq (Except ε α) := fun a b =>
  match a, b with
  | .error e, .error f =>
    match decEq e f with
    | isTrue h => isTrue (congrArg Except.error h)
    | isFalse h => isFalse (fun hh => h (Except.error.inj hh))
  | .ok x, .ok y =>
    match decEq x y with
    | isTrue h => isTrue (congrArg Except.ok h)
    | isFalse h => isFalse (fun hh => h (Except.ok.inj hh))
  | .error _, .ok _ => isFalse (fun hh => Except.noConfusion hh)
  | .ok _, .error _ => isFalse (fun hh => Except.noConfusion hh)

/-- The externally determined outcomes of the two fetchers for one request.
`trendreq_ctor_fails` models `TrendReq(...)` (line 248) raising — the only
statement of `fetch_from_pytrends` outside its try block, hence the only way
that function can raise to its caller.  `pytrends_related` is the outcome of
the guarded body: `Except.error` for any exception caught by line 263 and
`Except.ok rows` for a normal related-queries frame (None/empty frame is
`Except.ok []`).  `gjson_result` likewise covers the whole guarded body of
`fetch_from_google_trends_json`: `Except.error` for network/HTTP-status/
JSON/shape failures (all caught, returning []), `Except.ok items` for a
parsed `rankedKeyword` list. -/
structure FetchEnv where
  trendreq_ctor_fails : Bool
  pytrends_related : Except Unit (List PyRow)
  gjson_result : Except Unit (List GItem)
deriving DecidableEq, Repr

/-- The filtering loop of `fetch_from_pytrends` (lines 255-261): keep rows
whose value converts to an int strictly greater than 20. -/
def pyFilter (rows : List PyRow) : List TrendPair :=
  rows.filterMap fun r =>
    match r.value with
    | none => none
    | some v => if v > 20 then some ⟨r.query, v⟩ else none

/-- `fetch_from_pytrends` (lines 244-265): stamps `last_request_time`,
increments `request_count` (both before anything can fail), then either
raises (client construction), or returns the filtered related queries, with
every in-body exception caught and turned into an empty list. -/
def fetch_from_pytrends (fenv : FetchEnv) (now : Time) (g : GlobalCacheState) :
    Except Unit (List TrendPair) × GlobalCacheState :=
  let g1 := { g with last_request_time := now, request_count := g.request_count + 1 }
  if fenv.trendreq_ctor_fails then (.error (), g1)
  else
    match fenv.pytrends_related with
    | .error _ => (.ok [], g1)
    | .ok rows => (.ok (pyFilter rows), g1)

/-- The filtering loop of `fetch_from_google_trends_json` (lines 281-284):
keep ranked keywords with value strictly greater than 20. -/
def gjFilter (items : List GItem) : List TrendPair :=
  items.filterMap fun i => if i.value > 20 then some ⟨i.query, i.value⟩ else none

/-- `fetch_from_google_trends_json` (lines 268-288): stamps the rate-limiter
bookkeeping, then returns the filtered ranked keywords; every failure of the
guarded body is caught and becomes an empty list, so the function never
raises to its caller. -/
def fetch_from_google_trends_json (fenv : FetchEnv) (now : Time) (g : GlobalCacheState) :
    List TrendPair × GlobalCacheState :=
  let g1 := { g with last_request_time := now, request_count := g.request_count + 1 }
  match fenv.gjson_result with
  | .error _ => ([], g1)
  | .ok items => (gjFilter items, g1)

/-- Outcome of the fresh-fetch section of `get_trends`. -/
structure FreshResolution where
  trends : List TrendPair
  source : String
  secondary_invoked : Bool
  slept : Bool
  g : GlobalCacheState
deriving DecidableEq, Repr

/-- The try/except chain of `get_trends` lines 332-342: pytrends is called
first; only when that call raises does the handler sleep one second and call
the Google-JSON fetcher (which itself never raises).  A pytrends call that
returns normally — even with an empty list — never reaches the secondary
fetcher. -/
def resolveFresh (fenv : FetchEnv) (now : Time) (g : GlobalCacheState) : FreshResolution :=
  match fetch_from_pytrends fenv now g with
  | (.ok trends, g1) => ⟨trends, "pytrends", false, false, g1⟩
  | (.error _, g1) =>
    let r2 := fetch_from_google_trends_json fenv now g1
    ⟨r2.1, "google_trends_json", true, true, r2.2⟩

/-- The three placeholder records of lines 347-351. -/
def fallbackTrends (topic : String) : List TrendPair :=
  [⟨topic ++ " inspiration", 30⟩, ⟨topic ++ " ideas", 25⟩, ⟨topic ++ " aesthetic", 22⟩]

/-- Lines 332-352: the fetch chain followed by the fallback block — an empty
trends list is replaced by the three placeholders with source "fallback". -/
def resolveWithFallback (fenv : FetchEnv) (topic : String) (now : Time)
    (g : GlobalCacheState) : FreshResolution :=
  let r := resolveFresh fenv now g
  if r.trends.isEmpty then
    { r with trends := fallbackTrends topic, source := "fallback" }
  else r

/-- The enrichment loop body (lines 360-377): build a KeywordRecord from a
raw pair.  `hash` abstracts the SHA-1 digest; the code hashes the string
topic ++ "|" ++ keyword.  `ts` and `db` are the precomputed ISO timestamp
and day-bucket strings. -/
def enrichRecord (cfg : Config) (topic cluster source ts db : String)
    (hash : String → String) (t : TrendPair) : KeywordRecord :=
  { keyword := t.keyword
    score := t.score
    topic := topic
    topic_cluster := cluster
    intent := simple_intent_classifier t.keyword
    source := source
    keyword_hash := hash (topic ++ "|" ++ t.keyword)
    timestamp := ts
    day_bucket := if cfg.day_bucket_enabled then some db else none }

/-- Outcome of the persistence block: how many rows the successful call
reported, whether the upsert retry ran, and the conflict-column string it
was given. -/
structure PersistResult where
  inserted : Nat
  upsert_attempted : Bool
  conflict_cols : Option String
deriving DecidableEq, Repr

/-- The persistence block of `get_trends` (lines 392-424): try a plain
insert; only if it raises, retry exactly once as an upsert keyed on
"topic,keyword,day_bucket" when the day-bucket column is enabled and on
"topic,keyword" otherwise; a second failure is absorbed.  The function is
total: no outcome escapes to the caller. -/
def persistRecords (day_bucket_enabled : Bool)
    (insert_result upsert_result : Except Unit (List KeywordRecord)) : PersistResult :=
  match insert_result with
  | .ok rows => ⟨rows.length, false, none⟩
  | .error _ =>
    let cols := if day_bucket_enabled then "topic,keyword,day_bucket" else "topic,keyword"
    match upsert_result with
    | .ok rows => ⟨rows.length, true, some cols⟩
    | .error _ => ⟨0, true, some cols⟩

/-- The 429 body of line 306: error string, the limiter's message, and
`retry_after` — which the code sets to the constant MIN_REQUEST_INTERVAL. -/
structure RateLimitErrorBody where
  error : String
  message : Option LimitMsg
  retry_after : Time
deriving DecidableEq, Repr

/-- Everything one call of the `get_trends` route produces: HTTP status, the
JSON body (`Except.error` is the 429 object), the GLOBAL_CACHE and CACHE
states left behind, and the observable side effects the claims talk about:
whether the repository was queried for the cache tier, what the persistence
block did (none when it never ran), and whether the secondary fetcher ran /
the deliberate pause happened. -/
structure GetTrendsResult where
  status : Nat
  body : Except RateLimitErrorBody ResponsePayload
  g : GlobalCacheState
  cache : MemCache
  db_query : Bool
  persist : Option PersistResult
  secondary_invoked : Bool
  slept : Bool

/-- The part of `get_trends` after the memory-cache check (lines 321-430):
try the database cache tier; on a hit store it in CACHE and serve it,
otherwise resolve fresh data through the fetch chain and fallback, enrich
it, run the persistence block, store the result in CACHE and serve it. -/
def get_trends_after_memory (cfg : Config) (fenv : FetchEnv)
    (db_rows insert_result upsert_result : Except Unit (List KeywordRecord))
    (topic cluster : String) (now : Time) (hash : String → String) (ts db : String)
    (g2 : GlobalCacheState) (cache1 : MemCache) : GetTrendsResult :=
  match get_from_database_cache db_rows topic with
  | some d =>
    { status := 200
      body := .ok d
      g := g2
      cache := memCachePut cache1 topic now d
      db_query := true
      persist := none
      secondary_invoked := false
      slept := false }
  | none =>
    let fr := resolveWithFallback fenv topic now g2
    let final_data := fr.trends.map (enrichRecord cfg topic cluster fr.source ts db hash)
    let pr := persistRecords cfg.day_bucket_enabled insert_result upsert_result
    let payload : ResponsePayload :=
      { source := fr.source
        topic := topic
        trend_keywords := final_data
        cache_hit := some "fresh"
        cached_from_db := false
        timestamp := some ts }
    { status := 200
      body := .ok payload
      g := fr.g
      cache := memCachePut cache1 topic now payload
      db_query := true
      persist := some pr
      secondary_invoked := fr.secondary_invoked
      slept := fr.slept }

/-- The opportunistic janitor block at the top of `get_trends` (lines
296-301): run the memory sweep when it is due, then the database sweep when
it is due, returning the cache and global state the rest of the request
sees. -/
def sweepStage (cfg : Config) (delete_result : Except Unit (List KeywordRecord))
    (now : Time) (g0 : GlobalCacheState) (cache0 : MemCache) :
    MemCache × GlobalCacheState :=
  let swept :=
    if now - g0.last_cleanup > cfg.cache_cleanup_interval then
      cleanup_cache cfg now cache0 g0
    else (cache0, g0)
  let g1 :=
    if 0 < cfg.database_cleanup_interval ∧
        now - swept.2.last_db_cleanup > cfg.database_cleanup_interval then
      (cleanup_database delete_result cfg.db_retention_days now swept.2).g
    else swept.2
  (swept.1, g1)

/-- The `get_trends` route (lines 294-430).  External outcomes (fetchers,
repository select / insert / upsert / delete) and the randomly picked topic
and cluster are explicit inputs; `hash`, `ts`, `db` abstract the SHA-1
digest function and the ISO timestamp / day-bucket strings for `now`.
Stages in source order: the janitor sweeps, the rate-limit gate (429 with
`retry_after` = MIN_REQUEST_INTERVAL), the memory cache (a hit is served
with its `cache_hit` key set to "memory", mutating the cached dict in
place), then `get_trends_after_memory`. -/
def get_trends (cfg : Config) (fenv : FetchEnv)
    (db_rows insert_result upsert_result delete_result : Except Unit (List KeywordRecord))
    (topic cluster : String) (now : Time) (hash : String → String) (ts db : String)
    (g0 : GlobalCacheState) (cache0 : MemCache) : GetTrendsResult :=
  let s := sweepStage cfg delete_result now g0 cache0
  let cache1 := s.1
  let g1 := s.2
  let rc := is_rate_limited cfg now g1
  if rc.limited then
    { status := 429
      body := .error ⟨"Rate limited", rc.msg, cfg.min_request_interval⟩
      g := rc.g
      cache := cache1
      db_query := false
      persist := none
      secondary_invoked := false
      slept := false }
  else
    match cache1 topic with
    | some e =>
      if now - e.time < cfg.cache_duration then
        let served := { e.data with cache_hit := some "memory" }
        { status := 200
          body := .ok served
          g := rc.g
          cache := fun t => if t = topic then some ⟨e.time, served⟩ else cache1 t
          db_query := false
          persist := none
          secondary_invoked := false
          slept := false }
      else
        get_trends_after_memory cfg fenv db_rows insert_result upsert_result
          topic cluster now hash ts db rc.g cache1
    | none =>
      get_trends_after_memory cfg fenv db_rows insert_result upsert_result
        topic cluster now hash ts db rc.g cache1

/-- The JSON body and status of the `/maintenance/db-cleanup` route. -/
structure ManualCleanupResult where
  status : Nat
  deleted_rows : Option Nat
  retention_days : Option Int
  g : GlobalCacheState
  delete_attempted : Bool
deriving DecidableEq, Repr

/-- `manual_db_cleanup` (lines 546-560).  `days_arg` models the `days` query
parameter: `none` when absent, `some none` when present but `int()` raises
ValueError, `some (some n)` when it parses to n.  An unparseable value is
rejected with 400 before `cleanup_database` is reached. -/
def manual_db_cleanup (delete_result : Except Unit (List KeywordRecord)) (cfg : Config)
    (days_arg : Option (Option Int)) (now : Time) (g : GlobalCacheState) :
    ManualCleanupResult :=
  match days_arg with
  | some none => ⟨400, none, none, g, false⟩
  | some (some n) =>
    let c := cleanup_database delete_result n now g
    ⟨200, some c.deleted, some n, c.g, c.delete_attempted⟩
  | none =>
    let c := cleanup_database delete_result cfg.db_retention_days now g
    ⟨200, some c.deleted, some cfg.db_retention_days, c.g, c.delete_attempted⟩

/-- The usable pairs the primary fetcher can contribute: none when the client
constructor raises or the guarded body fails, otherwise its filtered rows. -/
def pyUsable (fenv : FetchEnv) : List TrendPair :=
  if fenv.trendreq_ctor_fails then []
  else
    match fenv.pytrends_related with
    | .error _ => []
    | .ok rows => pyFilter rows

/-- The usable pairs the secondary fetcher can contribute. -/
def gjUsable (fenv : FetchEnv) : List TrendPair :=
  match fenv.gjson_result with
  | .error _ => []
  | .ok items => gjFilter items

/-! ## Sample concrete inputs used by witnesses and counterexamples -/

/-- A zeroed global state. -/
def gZero : GlobalCacheState := ⟨0, 0, 0, 0, 0⟩

/-- A sample stored response payload. -/
def samplePayload : ResponsePayload :=
  { source := "pytrends", topic := "t", trend_keywords := [],
    cache_hit := some "fresh", cached_from_db := false, timestamp := some "ts" }

/-- A fetch environment where the primary fetcher returns normally with an
empty result while the secondary fetcher would return a usable pair. -/
def fenvEmptyPrimary : FetchEnv := ⟨false, .ok [], .ok [⟨"x", 50⟩]⟩

/-- A global state whose hourly window is stale (more than 3600 s old) while
the last upstream request was 5 s before time 4000. -/
def gHourElapsed : GlobalCacheState :=
  { last_request_time := 3995, request_count := 5, last_cleanup := 0,
    hour_start := 0, last_db_cleanup := 0 }

/-- A global state at time 100: last upstream request 5 s ago, sweeps not
due, hourly window fresh. -/
def gRecentRequest : GlobalCacheState :=
  { last_request_time := 95, request_count := 0, last_cleanup := 100,
    hour_start := 100, last_db_cleanup := 100 }

/-- A global state at time 100 with no recent upstream request, sweeps not
due. -/
def gIdle : GlobalCacheState :=
  { last_request_time := 0, request_count := 0, last_cleanup := 100,
    hour_start := 100, last_db_cleanup := 100 }

/-- A sample repository row for the database cache tier. -/
def dbRow : KeywordRecord :=
  { keyword := "k", score := 42, topic := "t", topic_cluster := "c",
    intent := "creative", source := "pytrends", keyword_hash := "h",
    timestamp := "ts0", day_bucket := some "d0" }

/-- A fetch environment where both fetchers return normally with no usable
results. -/
def fenvAllEmpty : FetchEnv := ⟨false, .ok [], .ok []⟩

/-- A memory cache holding the database-tier payload for topic "t" stored at
time 100. -/
def cacheWithDbPayload : MemCache :=
  memCachePut (fun _ => none) "t" 100 (databaseCachePayload "t" [dbRow])

/-! ## Helper lemmas -/

lemma cleanup_database_g_eq (d : Except Unit (List KeywordRecord)) (ret : Int)
    (now : Time) (g : GlobalCacheState) :
    (cleanup_database d ret now g).g
      = if ret ≤ 0 then g else { g with last_db_cleanup := now } := by
  unfold cleanup_database
  split <;> simp_all

lemma sweepStage_fst_none {cache0 : MemCache} {topic : String}
    (cfg : Config) (del : Except Unit (List KeywordRecord)) (now : Time)
    (g0 : GlobalCacheState) (hmem : cache0 topic = none) :
    (sweepStage cfg del now g0 cache0).1 topic = none := by
  simp only [sweepStage]
  split
  · simp [cleanup_cache, hmem]
  · exact hmem

lemma sweepStage_fst_keep {cache0 : MemCache} {topic : String} {e : CacheEntry}
    {cfg : Config} {now : Time}
    (del : Except Unit (List KeywordRecord)) (g0 : GlobalCacheState)
    (hmem : cache0 topic = some e) (hfresh : now - e.time < cfg.cache_duration) :
    (sweepStage cfg del now g0 cache0).1 topic = some e := by
  simp only [sweepStage]
  split
  · simp only [cleanup_cache, hmem]
    split
    · rename_i h
      exact absurd h (not_lt.mpr (le_of_lt hfresh))
    · rfl
  · exact hmem

lemma sweepStage_last_request_time (cfg : Config)
    (del : Except Unit (List KeywordRecord)) (now : Time)
    (g0 : GlobalCacheState) (cache0 : MemCache) :
    (sweepStage cfg del now g0 cache0).2.last_request_time = g0.last_request_time := by
  simp only [sweepStage, cleanup_database_g_eq, cleanup_cache]
  split_ifs <;> rfl

lemma sweepStage_request_count (cfg : Config)
    (del : Except Unit (List KeywordRecord)) (now : Time)
    (g0 : GlobalCacheState) (cache0 : MemCache) :
    (sweepStage cfg del now g0 cache0).2.request_count = g0.request_count := by
  simp only [sweepStage, cleanup_database_g_eq, cleanup_cache]
  split_ifs <;> rfl

lemma sweepStage_hour_start (cfg : Config)
    (del : Except Unit (List KeywordRecord)) (now : Time)
    (g0 : GlobalCacheState) (cache0 : MemCache) :
    (sweepStage cfg del now g0 cache0).2.hour_start = g0.hour_start := by
  simp only [sweepStage, cleanup_database_g_eq, cleanup_cache]
  split_ifs <;> rfl

lemma hourWindowReset_last_request_time (now : Time) (g : GlobalCacheState) :
    (hourWindowReset now g).last_request_time = g.last_request_time := by
  unfold hourWindowReset
  split <;> rfl

lemma is_rate_limited_allowed {cfg : Config} {now : Time} {g : GlobalCacheState}
    (hmin : cfg.min_request_interval ≤ now - g.last_request_time)
    (hcount : g.request_count < cfg.max_requests_per_hour) :
    is_rate_limited cfg now g = ⟨false, none, hourWindowReset now g⟩ := by
  simp only [is_rate_limited]
  rw [if_neg, if_neg]
  · unfold hourWindowReset
    split
    · simp only [not_le]
      omega
    · exact not_le.mpr hcount
  · rw [hourWindowReset_last_request_time]
    exact not_lt.mpr hmin

lemma get_trends_reaches_after_memory
    {cfg : Config} {topic : String} {now : Time} {g0 : GlobalCacheState}
    {cache0 : MemCache}
    (fenv : FetchEnv) (db_rows ins ups del : Except Unit (List KeywordRecord))
    (cluster : String) (hash : String → String) (ts dayb : String)
    (hmem : cache0 topic = none)
    (hmin : cfg.min_request_interval ≤ now - g0.last_request_time)
    (hcount : g0.request_count < cfg.max_requests_per_hour) :
    get_trends cfg fenv db_rows ins ups del topic cluster now hash ts dayb g0 cache0
      = get_trends_after_memory cfg fenv db_rows ins ups topic cluster now hash ts dayb
          (hourWindowReset now (sweepStage cfg del now g0 cache0).2)
          (sweepStage cfg del now g0 cache0).1 := by
  simp only [get_trends]
  rw [is_rate_limited_allowed (g := (sweepStage cfg del now g0 cache0).2)
        (by rw [sweepStage_last_request_time]; exact hmin)
        (by rw [sweepStage_request_count]; exact hcount),
      sweepStage_fst_none cfg del now g0 hmem]
  rfl

lemma get_trends_memory_hit
    {cfg : Config} {topic : String} {now : Time} {g0 : GlobalCacheState}
    {cache0 : MemCache} {e : CacheEntry}
    (fenv : FetchEnv) (db_rows ins ups del : Except Unit (List KeywordRecord))
    (cluster : String) (hash : String → String) (ts dayb : String)
    (hmem : cache0 topic = some e)
    (hfresh : now - e.time < cfg.cache_duration)
    (hmin : cfg.min_request_interval ≤ now - g0.last_request_time)
    (hcount : g0.request_count < cfg.max_requests_per_hour) :
    (get_trends cfg fenv db_rows ins ups del topic cluster now hash ts dayb g0 cache0).status
        = 200
    ∧ (get_trends cfg fenv db_rows ins ups del topic cluster now hash ts dayb g0 cache0).body
        = Except.ok { e.data with cache_hit := some "memory" }
    ∧ (get_trends cfg fenv db_rows ins ups del topic cluster now hash ts dayb g0 cache0).db_query
        = false
    ∧ (get_trends cfg fenv db_rows ins ups del topic cluster now hash ts dayb g0 cache0).persist
        = none := by
  simp only [get_trends]
  rw [is_rate_limited_allowed (g := (sweepStage cfg del now g0 cache0).2)
        (by rw [sweepStage_last_request_time]; exact hmin)
        (by rw [sweepStage_request_count]; exact hcount),
      sweepStage_fst_keep del g0 hmem hfresh]
  simp [hfresh]

lemma pyFilter_score_gt {rows : List PyRow} {p : TrendPair} (hp : p ∈ pyFilter rows) :
    20 < p.score := by
  simp only [pyFilter, List.mem_filterMap] at hp
  obtain ⟨r, _, h⟩ := hp
  cases hv : r.value with
  | none => simp only [hv] at h; exact absurd h (by simp)
  | some v =>
    simp only [hv] at h
    by_cases h20 : v > 20
    · rw [if_pos h20] at h
      cases h
      exact h20
    · rw [if_neg h20] at h
      exact absurd h (by simp)

lemma gjFilter_score_gt {items : List GItem} {p : TrendPair} (hp : p ∈ gjFilter items) :
    20 < p.score := by
  simp only [gjFilter, List.mem_filterMap] at hp
  obtain ⟨i, _, h⟩ := hp
  by_cases h20 : i.value > 20
  · rw [if_pos h20] at h
    cases h
    exact h20
  · rw [if_neg h20] at h
    exact absurd h (by simp)

lemma fallbackTrends_score_gt {topic : String} {p : TrendPair}
    (hp : p ∈ fallbackTrends topic) : 20 < p.score := by
  simp only [fallbackTrends, List.mem_cons, List.not_mem_nil, or_false] at hp
  rcases hp with rfl | rfl | rfl <;> norm_num

lemma resolveWithFallback_score_gt {fenv : FetchEnv} {topic : String} {now : Time}
    {g : GlobalCacheState} {p : TrendPair}
    (hp : p ∈ (resolveWithFallback fenv topic now g).trends) : 20 < p.score := by
  simp only [resolveWithFallback] at hp
  split at hp
  · exact fallbackTrends_score_gt hp
  · simp only [resolveFresh, fetch_from_pytrends, fetch_from_google_trends_json] at hp
    rcases fenv with ⟨ctor, rel, gj⟩
    cases ctor
    · cases rel with
      | error e => simp at hp
      | ok rows => simp only at hp; exact pyFilter_score_gt hp
    · cases gj with
      | error e => simp at hp
      | ok items => simp only at hp; exact gjFilter_score_gt hp

lemma sweepStage_del_indep (cfg : Config) (d1 d2 : Except Unit (List KeywordRecord))
    (now : Time) (g0 : GlobalCacheState) (cache0 : MemCache) :
    sweepStage cfg d1 now g0 cache0 = sweepStage cfg d2 now g0 cache0 := by
  simp only [sweepStage, cleanup_database_g_eq]

lemma get_trends_del_indep (cfg : Config) (fenv : FetchEnv)
    (db_rows ins ups d1 d2 : Except Unit (List KeywordRecord))
    (topic cluster : String) (now : Time) (hash : String → String) (ts dayb : String)
    (g0 : GlobalCacheState) (cache0 : MemCache) :
    get_trends cfg fenv db_rows ins ups d1 topic cluster now hash ts dayb g0 cache0
      = get_trends cfg fenv db_rows ins ups d2 topic cluster now hash ts dayb g0 cache0 := by
  simp only [get_trends]
  rw [sweepStage_del_indep cfg d1 d2 now g0 cache0]

lemma get_trends_persist_indep (cfg : Config) (fenv : FetchEnv)
    (db_rows i1 u1 i2 u2 del : Except Unit (List KeywordRecord))
    (topic cluster : String) (now : Time) (hash : String → String) (ts dayb : String)
    (g0 : GlobalCacheState) (cache0 : MemCache) :
    (get_trends cfg fenv db_rows i1 u1 del topic cluster now hash ts dayb g0 cache0).status
      = (get_trends cfg fenv db_rows i2 u2 del topic cluster now hash ts dayb g0 cache0).status
    ∧ (get_trends cfg fenv db_rows i1 u1 del topic cluster now hash ts dayb g0 cache0).body
      = (get_trends cfg fenv db_rows i2 u2 del topic cluster now hash ts dayb g0 cache0).body := by
  simp only [get_trends, get_trends_after_memory]
  constructor <;> (repeat' (first | rfl | split))

/-! ## Claim theorems -/

/-- C4: a memory-cache put followed by a get of the same topic within the TTL
returns exactly the stored payload, and get returns Miss if and only if the
entry is absent or at least CACHE_DURATION old; the get is a pure read and
performs no eviction. -/
theorem claim_C4_memory_cache_ttl (cfg : Config) (cache : MemCache) (topic : String)
    (stored now : Time) (d : ResponsePayload) :
    (now - stored < cfg.cache_duration →
      memCacheGet cfg (memCachePut cache topic stored d) topic now = some d)
    ∧ (memCacheGet cfg cache topic now = none ↔
        cache topic = none ∨ ∃ e, cache topic = some e ∧ cfg.cache_duration ≤ now - e.time) := by
  constructor
  · intro h
    simp [memCacheGet, memCachePut, h]
  · cases hm : cache topic with
    | none => simp [memCacheGet, hm]
    | some e =>
      simp only [memCacheGet, hm]
      by_cases hlt : now - e.time < cfg.cache_duration
      · rw [if_pos hlt]
        constructor
        · intro h
          exact Option.noConfusion h
        · rintro (h | ⟨e', he', hst⟩)
          · exact Option.noConfusion h
          · cases Option.some.inj he'
            exact absurd hst (not_le.mpr hlt)
      · rw [if_neg hlt]
        constructor
        · intro _
          exact Or.inr ⟨e, rfl, not_lt.mp hlt⟩
        · intro _
          rfl

/-- C4 witness: a concrete put/get round trip within the TTL. -/
theorem claim_C4_witness :
    memCacheGet defaultConfig (memCachePut (fun _ => none) "t" 0 samplePayload) "t" 100
      = some samplePayload :=
  (claim_C4_memory_cache_ttl defaultConfig (fun _ => none) "t" 0 100 samplePayload).1
    (by decide)

/-- C9: a present-but-unparseable days parameter is rejected with status 400,
with the global state unchanged and no repository delete attempted. -/
theorem claim_C9_invalid_days_param (del : Except Unit (List KeywordRecord))
    (cfg : Config) (now : Time) (g : GlobalCacheState) :
    manual_db_cleanup del cfg (some none) now g = ⟨400, none, none, g, false⟩ := rfl

/-- C8: the durable sweep stamps `last_db_cleanup` whenever a deletion is
attempted, for success and failure alike; retention at most 0 deletes
nothing and reports 0; and the request path is unaffected by the delete
outcome. -/
theorem claim_C8_durable_sweep (del : Except Unit (List KeywordRecord)) (ret : Int)
    (now : Time) (g : GlobalCacheState) :
    (0 < ret →
      (cleanup_database del ret now g).g = { g with last_db_cleanup := now }
      ∧ (cleanup_database del ret now g).delete_attempted = true)
    ∧ (ret ≤ 0 → cleanup_database del ret now g = ⟨0, g, false⟩)
    ∧ (∀ (cfg : Config) (fenv : FetchEnv)
        (db_rows ins ups d1 d2 : Except Unit (List KeywordRecord))
        (topic cluster : String) (now' : Time) (hash : String → String) (ts dayb : String)
        (g0 : GlobalCacheState) (cache0 : MemCache),
        get_trends cfg fenv db_rows ins ups d1 topic cluster now' hash ts dayb g0 cache0
          = get_trends cfg fenv db_rows ins ups d2 topic cluster now' hash ts dayb g0 cache0) := by
  refine ⟨fun h => ?_, fun h => ?_,
    fun cfg fenv db_rows ins ups d1 d2 topic cluster now' hash ts dayb g0 cache0 =>
      get_trends_del_indep cfg fenv db_rows ins ups d1 d2 topic cluster now' hash ts dayb
        g0 cache0⟩
  · constructor
    · rw [cleanup_database_g_eq, if_neg (by omega)]
    · unfold cleanup_database
      rw [if_neg (by omega)]
  · unfold cleanup_database
    rw [if_pos h]

/-- C8 witness: a failing delete still stamps the sweep timestamp, and
retention 0 is a no-op. -/
theorem claim_C8_witness :
    (cleanup_database (Except.error ()) 30 5 gZero).g
        = { gZero with last_db_cleanup := 5 }
    ∧ cleanup_database (Except.error ()) 0 5 gZero = ⟨0, gZero, false⟩ :=
  ⟨((claim_C8_durable_sweep (Except.error ()) 30 5 gZero).1 (by decide)).1,
   (claim_C8_durable_sweep (Except.error ()) 0 5 gZero).2.1 (by decide)⟩

/-- C7: persistence tries a plain insert first (no upsert on success),
retries exactly once as an upsert keyed on topic,keyword plus day_bucket
when enabled if and only if the insert raises, and the response returned to
the caller is independent of both outcomes. -/
theorem claim_C7_persistence (dayB : Bool) (rows : List KeywordRecord)
    (ups : Except Unit (List KeywordRecord)) :
    persistRecords dayB (.ok rows) ups = ⟨rows.length, false, none⟩
    ∧ ((persistRecords dayB (.error ()) ups).upsert_attempted = true
        ∧ (persistRecords dayB (.error ()) ups).conflict_cols
            = some (if dayB then "topic,keyword,day_bucket" else "topic,keyword"))
    ∧ (∀ (cfg : Config) (fenv : FetchEnv)
        (db_rows i1 u1 i2 u2 del : Except Unit (List KeywordRecord))
        (topic cluster : String) (now : Time) (hash : String → String) (ts dayb : String)
        (g0 : GlobalCacheState) (cache0 : MemCache),
        (get_trends cfg fenv db_rows i1 u1 del topic cluster now hash ts dayb g0 cache0).status
          = (get_trends cfg fenv db_rows i2 u2 del topic cluster now hash ts dayb g0 cache0).status
        ∧ (get_trends cfg fenv db_rows i1 u1 del topic cluster now hash ts dayb g0 cache0).body
          = (get_trends cfg fenv db_rows i2 u2 del topic cluster now hash ts dayb g0 cache0).body) := by
  refine ⟨rfl, ?_, fun cfg fenv db_rows i1 u1 i2 u2 del topic cluster now hash ts dayb g0
      cache0 => get_trends_persist_indep cfg fenv db_rows i1 u1 i2 u2 del topic cluster now
        hash ts dayb g0 cache0⟩
  cases ups <;> exact ⟨rfl, rfl⟩

/-- C10: every record of a fresh resolution — fetched or fallback — scores
strictly above 20; both fetchers filter out values of at most 20, and
enrichment preserves scores. -/
theorem claim_C10_scores_above_20 :
    (∀ (rows : List PyRow) (p : TrendPair), p ∈ pyFilter rows → 20 < p.score)
    ∧ (∀ (items : List GItem) (p : TrendPair), p ∈ gjFilter items → 20 < p.score)
    ∧ (∀ (fenv : FetchEnv) (topic : String) (now : Time) (g : GlobalCacheState)
        (p : TrendPair), p ∈ (resolveWithFallback fenv topic now g).trends → 20 < p.score)
    ∧ (∀ (cfg : Config) (fenv : FetchEnv) (topic cluster : String) (now : Time)
        (hash : String → String) (ts dayb : String) (g : GlobalCacheState) (r : KeywordRecord),
        r ∈ ((resolveWithFallback fenv topic now g).trends).map
              (enrichRecord cfg topic cluster (resolveWithFallback fenv topic now g).source
                ts dayb hash)
          → 20 < r.score) := by
  refine ⟨fun rows p hp => pyFilter_score_gt hp,
    fun items p hp => gjFilter_score_gt hp,
    fun fenv topic now g p hp => resolveWithFallback_score_gt hp,
    fun cfg fenv topic cluster now hash ts dayb g r hr => ?_⟩
  rw [List.mem_map] at hr
  obtain ⟨p, hp, rfl⟩ := hr
  exact resolveWithFallback_score_gt hp

/-- C10 witness: a concrete fallback record passes the threshold. -/
theorem claim_C10_witness : 20 < (⟨"t inspiration", (30 : Int)⟩ : TrendPair).score :=
  claim_C10_scores_above_20.2.2.1 ⟨false, .ok [], .ok []⟩ "t" 0 gZero
    ⟨"t inspiration", 30⟩ (by decide)

lemma is_rate_limited_g (cfg : Config) (now : Time) (g : GlobalCacheState) :
    (is_rate_limited cfg now g).g = hourWindowReset now g := by
  simp only [is_rate_limited]
  split_ifs <;> rfl

/-- C1 counterexample: with the primary fetcher returning normally with an
empty list and the secondary fetcher able to deliver a usable pair, the
chain goes straight to the placeholder fallback without invoking the
secondary fetcher — refuting the claim that an empty primary result leads
to the secondary fetcher before fallback synthesis. -/
theorem claim_C1_counterexample :
    (fetch_from_pytrends fenvEmptyPrimary 0 gZero).1 = Except.ok []
    ∧ (resolveWithFallback fenvEmptyPrimary "t" 0 gZero).secondary_invoked = false
    ∧ (resolveWithFallback fenvEmptyPrimary "t" 0 gZero).source = "fallback" :=
  ⟨rfl, rfl, rfl⟩

/-- C1 amended: the secondary fetcher (with the pause before it) is invoked
exactly when the primary raises an exception that escapes it — only client
construction can do that, since upstream errors are caught inside the
primary and become empty results; a primary that returns an empty result
proceeds directly to fallback synthesis without the secondary fetcher. -/
theorem claim_C1_amended (fenv : FetchEnv) (topic : String) (now : Time)
    (g : GlobalCacheState) :
    ((resolveWithFallback fenv topic now g).secondary_invoked = fenv.trendreq_ctor_fails)
    ∧ ((resolveWithFallback fenv topic now g).slept = fenv.trendreq_ctor_fails)
    ∧ (fenv.trendreq_ctor_fails = false →
        (fetch_from_pytrends fenv now g).1 = Except.ok [] →
          (resolveWithFallback fenv topic now g).trends = fallbackTrends topic
          ∧ (resolveWithFallback fenv topic now g).source = "fallback"
          ∧ (resolveWithFallback fenv topic now g).secondary_invoked = false) := by
  rcases fenv with ⟨ctor, rel, gj⟩
  cases ctor
  · cases rel with
    | error e =>
      have hfr : resolveFresh ⟨false, Except.error e, gj⟩ now g
          = ⟨[], "pytrends", false, false,
             { g with last_request_time := now,
                      request_count := g.request_count + 1 }⟩ := rfl
      refine ⟨?_, ?_, fun _ _ => ⟨?_, ?_, ?_⟩⟩ <;>
        simp [resolveWithFallback, hfr]
    | ok rows =>
      have hfr : resolveFresh ⟨false, Except.ok rows, gj⟩ now g
          = ⟨pyFilter rows, "pytrends", false, false,
             { g with last_request_time := now,
                      request_count := g.request_count + 1 }⟩ := rfl
      have hfetch : (fetch_from_pytrends ⟨false, Except.ok rows, gj⟩ now g).1
          = Except.ok (pyFilter rows) := rfl
      by_cases hE : (pyFilter rows).isEmpty
      · refine ⟨?_, ?_, fun _ _ => ⟨?_, ?_, ?_⟩⟩ <;>
          simp [resolveWithFallback, hfr, hE]
      · refine ⟨?_, ?_, fun _ hok => ?_⟩
        · simp [resolveWithFallback, hfr, hE]
        · simp [resolveWithFallback, hfr, hE]
        · rw [hfetch] at hok
          have hnil : pyFilter rows = [] := Except.ok.inj hok
          rw [hnil] at hE
          exact absurd rfl hE
  · cases gj with
    | error e =>
      have hfr : resolveFresh ⟨true, rel, Except.error e⟩ now g
          = ⟨[], "google_trends_json", true, true,
             { g with last_request_time := now,
                      request_count := g.request_count + 1 + 1 }⟩ := rfl
      refine ⟨?_, ?_, fun hc _ => absurd hc (by simp)⟩ <;>
        simp [resolveWithFallback, hfr]
    | ok items =>
      have hfr : resolveFresh ⟨true, rel, Except.ok items⟩ now g
          = ⟨gjFilter items, "google_trends_json", true, true,
             { g with last_request_time := now,
                      request_count := g.request_count + 1 + 1 }⟩ := rfl
      by_cases hE : (gjFilter items).isEmpty
      · refine ⟨?_, ?_, fun hc _ => absurd hc (by simp)⟩ <;>
          simp [resolveWithFallback, hfr, hE]
      · refine ⟨?_, ?_, fun hc _ => absurd hc (by simp)⟩ <;>
          simp [resolveWithFallback, hfr, hE]

/-- C1 witness: at the counterexample environment the amended chain behaviour
is exhibited concretely. -/
theorem claim_C1_witness :
    (resolveWithFallback fenvEmptyPrimary "t" 0 gZero).trends = fallbackTrends "t"
    ∧ (resolveWithFallback fenvEmptyPrimary "t" 0 gZero).source = "fallback"
    ∧ (resolveWithFallback fenvEmptyPrimary "t" 0 gZero).secondary_invoked = false :=
  (claim_C1_amended fenvEmptyPrimary "t" 0 gZero).2.2 rfl rfl

/-- C2 counterexample: a call at time 4000 against a state with an expired
hourly window and a request 5 s ago is Denied, yet it resets the hourly
counter and window start — refuting the claim that a Denied check leaves
the state exactly as it was. -/
theorem claim_C2_counterexample :
    (is_rate_limited defaultConfig 4000 gHourElapsed).limited = true
    ∧ (is_rate_limited defaultConfig 4000 gHourElapsed).g ≠ gHourElapsed := by
  decide

/-- C2 amended: a Denied check never changes `last_request_time`; it leaves
the whole state unchanged unless the hourly-window reset fires (more than
3600 s since `hour_start`), in which case it zeroes `request_count` and
restarts the window even though the call returns Denied. -/
theorem claim_C2_amended (cfg : Config) (now : Time) (g : GlobalCacheState)
    (_h : (is_rate_limited cfg now g).limited = true) :
    (is_rate_limited cfg now g).g.last_request_time = g.last_request_time
    ∧ (now - g.hour_start ≤ 3600 → (is_rate_limited cfg now g).g = g)
    ∧ (3600 < now - g.hour_start →
        (is_rate_limited cfg now g).g
          = { g with request_count := 0, hour_start := now }) := by
  rw [is_rate_limited_g]
  unfold hourWindowReset
  refine ⟨?_, fun hle => ?_, fun hgt => ?_⟩
  · split <;> rfl
  · rw [if_neg (not_lt.mpr hle)]
  · rw [if_pos hgt]

/-- C2 witness: a concrete Denied call inside the hourly window leaves the
state unchanged. -/
theorem claim_C2_witness :
    (is_rate_limited defaultConfig 100 ⟨95, 0, 0, 90, 0⟩).g = ⟨95, 0, 0, 90, 0⟩ :=
  (claim_C2_amended defaultConfig 100 ⟨95, 0, 0, 90, 0⟩ (by decide)).2.1 (by decide)

lemma is_rate_limited_too_frequent {cfg : Config} {now : Time} {g : GlobalCacheState}
    (hfreq : now - g.last_request_time < cfg.min_request_interval) :
    is_rate_limited cfg now g
      = ⟨true,
         some (LimitMsg.tooFrequent
           (cfg.min_request_interval - (now - g.last_request_time))),
         hourWindowReset now g⟩ := by
  simp only [is_rate_limited, hourWindowReset_last_request_time]
  rw [if_pos hfreq]

lemma resolveWithFallback_all_empty {fenv : FetchEnv} {topic : String} {now : Time}
    {g : GlobalCacheState} (hpy : pyUsable fenv = []) (hgj : gjUsable fenv = []) :
    (resolveWithFallback fenv topic now g).trends = fallbackTrends topic
    ∧ (resolveWithFallback fenv topic now g).source = "fallback" := by
  rcases fenv with ⟨ctor, rel, gj⟩
  cases ctor
  · cases rel with
    | error e => exact ⟨rfl, rfl⟩
    | ok rows =>
      have hnil : pyFilter rows = [] := by simpa [pyUsable] using hpy
      have hfr : resolveFresh ⟨false, Except.ok rows, gj⟩ now g
          = ⟨pyFilter rows, "pytrends", false, false,
             { g with last_request_time := now,
                      request_count := g.request_count + 1 }⟩ := rfl
      constructor <;> simp [resolveWithFallback, hfr, hnil]
  · cases gj with
    | error e => exact ⟨rfl, rfl⟩
    | ok items =>
      have hnil : gjFilter items = [] := by simpa [gjUsable] using hgj
      have hfr : resolveFresh ⟨true, rel, Except.ok items⟩ now g
          = ⟨gjFilter items, "google_trends_json", true, true,
             { g with last_request_time := now,
                      request_count := g.request_count + 1 + 1 }⟩ := rfl
      constructor <;> simp [resolveWithFallback, hfr, hnil]

/-- C3 counterexample: at time 100 with the last upstream request at 95, the
request is denied, the human-readable message carries the remaining wait of
5 s, but `retry_after` in the returned error object is the full 10 s
MIN_REQUEST_INTERVAL — not the remaining wait, refuting the claim. -/
theorem claim_C3_counterexample :
    (get_trends defaultConfig fenvEmptyPrimary (.ok []) (.ok []) (.ok []) (.ok [])
        "t" "c" 100 (fun s => s) "ts" "d" gRecentRequest (fun _ => none)).body
      = Except.error ⟨"Rate limited", some (LimitMsg.tooFrequent 5), 10⟩
    ∧ ((10 : Time) ≠ defaultConfig.min_request_interval
          - (100 - gRecentRequest.last_request_time)) := by
  constructor
  · decide
  · decide

/-- C3 amended: a request denied for frequency returns 429 whose
`retry_after` is the constant MIN_REQUEST_INTERVAL; the remaining wait time
(min_interval minus the elapsed time) appears only inside the message. -/
theorem claim_C3_amended (cfg : Config) (fenv : FetchEnv)
    (db_rows ins ups del : Except Unit (List KeywordRecord))
    (topic cluster : String) (now : Time) (hash : String → String) (ts dayb : String)
    (g0 : GlobalCacheState) (cache0 : MemCache)
    (hfreq : now - g0.last_request_time < cfg.min_request_interval) :
    (get_trends cfg fenv db_rows ins ups del topic cluster now hash ts dayb g0 cache0).status
        = 429
    ∧ (get_trends cfg fenv db_rows ins ups del topic cluster now hash ts dayb g0 cache0).body
        = Except.error ⟨"Rate limited",
            some (LimitMsg.tooFrequent
              (cfg.min_request_interval - (now - g0.last_request_time))),
            cfg.min_request_interval⟩ := by
  simp only [get_trends]
  rw [is_rate_limited_too_frequent (g := (sweepStage cfg del now g0 cache0).2)
        (by rw [sweepStage_last_request_time]; exact hfreq),
      sweepStage_last_request_time]
  exact ⟨rfl, rfl⟩

/-- C3 witness: the concrete denied request of the counterexample satisfies
the amended statement. -/
theorem claim_C3_witness :
    (get_trends defaultConfig fenvEmptyPrimary (.ok []) (.ok []) (.ok []) (.ok [])
        "t" "c" 100 (fun s => s) "ts" "d" gRecentRequest (fun _ => none)).status = 429
    ∧ (get_trends defaultConfig fenvEmptyPrimary (.ok []) (.ok []) (.ok []) (.ok [])
        "t" "c" 100 (fun s => s) "ts" "d" gRecentRequest (fun _ => none)).body
      = Except.error ⟨"Rate limited",
          some (LimitMsg.tooFrequent
            (defaultConfig.min_request_interval - (100 - gRecentRequest.last_request_time))),
          defaultConfig.min_request_interval⟩ :=
  claim_C3_amended defaultConfig fenvEmptyPrimary (.ok []) (.ok []) (.ok []) (.ok [])
    "t" "c" 100 (fun s => s) "ts" "d" gRecentRequest (fun _ => none) (by decide)

/-- C5 counterexample: a database-cache hit is served, but the served payload
has no cache_hit key at all (it is tagged source = database_cache instead)
— refuting the claim that it carries cache_hit = database. -/
theorem claim_C5_counterexample :
    (get_trends defaultConfig fenvEmptyPrimary (.ok [dbRow]) (.ok []) (.ok []) (.ok [])
        "t" "c" 100 (fun s => s) "ts" "d" gIdle (fun _ => none)).body
      = Except.ok (databaseCachePayload "t" [dbRow])
    ∧ (databaseCachePayload "t" [dbRow]).cache_hit = none
    ∧ (databaseCachePayload "t" [dbRow]).cache_hit ≠ some "database" := by
  refine ⟨by decide, rfl, by decide⟩

/-- C5 amended: a non-empty database-cache read is served as a payload with
source = database_cache and cached_from_db = true but no cache_hit key, and
is written into the memory cache; any later request that finds such an
entry within the memory TTL is served from memory (cache_hit = memory)
without querying the repository. -/
theorem claim_C5_amended :
    (∀ (cfg : Config) (fenv : FetchEnv) (rows : List KeywordRecord)
        (ins ups del : Except Unit (List KeywordRecord))
        (topic cluster : String) (now : Time) (hash : String → String) (ts dayb : String)
        (g0 : GlobalCacheState) (cache0 : MemCache),
        cache0 topic = none →
        cfg.min_request_interval ≤ now - g0.last_request_time →
        g0.request_count < cfg.max_requests_per_hour →
        rows ≠ [] →
        (get_trends cfg fenv (.ok rows) ins ups del topic cluster now hash ts dayb g0
            cache0).status = 200
        ∧ (get_trends cfg fenv (.ok rows) ins ups del topic cluster now hash ts dayb g0
            cache0).body = Except.ok (databaseCachePayload topic rows)
        ∧ (get_trends cfg fenv (.ok rows) ins ups del topic cluster now hash ts dayb g0
            cache0).cache topic = some ⟨now, databaseCachePayload topic rows⟩
        ∧ (get_trends cfg fenv (.ok rows) ins ups del topic cluster now hash ts dayb g0
            cache0).db_query = true)
    ∧ (∀ (cfg : Config) (fenv : FetchEnv)
        (db_rows ins ups del : Except Unit (List KeywordRecord))
        (topic cluster : String) (now' : Time) (hash : String → String) (ts dayb : String)
        (g : GlobalCacheState) (cache : MemCache) (e : CacheEntry),
        cache topic = some e →
        now' - e.time < cfg.cache_duration →
        cfg.min_request_interval ≤ now' - g.last_request_time →
        g.request_count < cfg.max_requests_per_hour →
        (get_trends cfg fenv db_rows ins ups del topic cluster now' hash ts dayb g
            cache).status = 200
        ∧ (get_trends cfg fenv db_rows ins ups del topic cluster now' hash ts dayb g
            cache).body = Except.ok { e.data with cache_hit := some "memory" }
        ∧ (get_trends cfg fenv db_rows ins ups del topic cluster now' hash ts dayb g
            cache).db_query = false) := by
  constructor
  · intro cfg fenv rows ins ups del topic cluster now hash ts dayb g0 cache0
      hmem hmin hcount hne
    rw [get_trends_reaches_after_memory fenv (.ok rows) ins ups del cluster hash ts dayb
          hmem hmin hcount]
    have hdb : get_from_database_cache (Except.ok rows) topic
        = some (databaseCachePayload topic rows) := by
      cases rows with
      | nil => exact absurd rfl hne
      | cons a l => rfl
    simp only [get_trends_after_memory, hdb]
    simp [memCachePut]
  · intro cfg fenv db_rows ins ups del topic cluster now' hash ts dayb g cache e
      hmem hfresh hmin hcount
    have h := get_trends_memory_hit fenv db_rows ins ups del cluster hash ts dayb
      hmem hfresh hmin hcount
    exact ⟨h.1, h.2.1, h.2.2.1⟩

/-- C5 witness: a concrete database-cache hit populates the memory cache, and
a second request 100 s later is served from memory with the repository
select failing outright. -/
theorem claim_C5_witness :
    ((get_trends defaultConfig fenvEmptyPrimary (.ok [dbRow]) (.ok []) (.ok []) (.ok [])
        "t" "c" 100 (fun s => s) "ts" "d" gIdle (fun _ => none)).cache "t"
      = some ⟨100, databaseCachePayload "t" [dbRow]⟩)
    ∧ ((get_trends defaultConfig fenvEmptyPrimary (Except.error ()) (.ok []) (.ok [])
        (.ok []) "t" "c" 200 (fun s => s) "ts" "d" gIdle cacheWithDbPayload).body
      = Except.ok { databaseCachePayload "t" [dbRow] with cache_hit := some "memory" })
    ∧ ((get_trends defaultConfig fenvEmptyPrimary (Except.error ()) (.ok []) (.ok [])
        (.ok []) "t" "c" 200 (fun s => s) "ts" "d" gIdle cacheWithDbPayload).db_query
      = false) :=
  ⟨(claim_C5_amended.1 defaultConfig fenvEmptyPrimary [dbRow] (.ok []) (.ok []) (.ok [])
      "t" "c" 100 (fun s => s) "ts" "d" gIdle (fun _ => none) rfl (by decide) (by decide)
      (List.cons_ne_nil _ _)).2.2.1,
   (claim_C5_amended.2 defaultConfig fenvEmptyPrimary (Except.error ()) (.ok []) (.ok [])
      (.ok []) "t" "c" 200 (fun s => s) "ts" "d" gIdle cacheWithDbPayload
      ⟨100, databaseCachePayload "t" [dbRow]⟩ (by decide) (by decide) (by decide)
      (by decide)).2.1,
   (claim_C5_amended.2 defaultConfig fenvEmptyPrimary (Except.error ()) (.ok []) (.ok [])
      (.ok []) "t" "c" 200 (fun s => s) "ts" "d" gIdle cacheWithDbPayload
      ⟨100, databaseCachePayload "t" [dbRow]⟩ (by decide) (by decide) (by decide)
      (by decide)).2.2⟩

/-- C6: when neither fetcher yields usable results (raising or empty), the
request is still served with 200 and its payload carries exactly the three
synthesized placeholder records — topic inspiration / ideas / aesthetic
with scores 30 / 25 / 22 — all tagged with the fallback source marker. -/
theorem claim_C6_fallback_on_exhaustion (cfg : Config) (fenv : FetchEnv)
    (db_rows ins ups del : Except Unit (List KeywordRecord))
    (topic cluster : String) (now : Time) (hash : String → String) (ts dayb : String)
    (g0 : GlobalCacheState) (cache0 : MemCache)
    (hmem : cache0 topic = none)
    (hmin : cfg.min_request_interval ≤ now - g0.last_request_time)
    (hcount : g0.request_count < cfg.max_requests_per_hour)
    (hdb : get_from_database_cache db_rows topic = none)
    (hpy : pyUsable fenv = []) (hgj : gjUsable fenv = []) :
    (get_trends cfg fenv db_rows ins ups del topic cluster now hash ts dayb g0
        cache0).status = 200
    ∧ (get_trends cfg fenv db_rows ins ups del topic cluster now hash ts dayb g0
        cache0).body
      = Except.ok
          { source := "fallback", topic := topic,
            trend_keywords :=
              (fallbackTrends topic).map
                (enrichRecord cfg topic cluster "fallback" ts dayb hash),
            cache_hit := some "fresh", cached_from_db := false, timestamp := some ts }
    ∧ ((fallbackTrends topic).map
          (enrichRecord cfg topic cluster "fallback" ts dayb hash)).map
        (fun r => (r.keyword, r.score, r.source))
      = [(topic ++ " inspiration", (30 : Int), "fallback"),
         (topic ++ " ideas", 25, "fallback"),
         (topic ++ " aesthetic", 22, "fallback")] := by
  rw [get_trends_reaches_after_memory fenv db_rows ins ups del cluster hash ts dayb
        hmem hmin hcount]
  simp only [get_trends_after_memory, hdb]
  obtain ⟨ht, hs⟩ := @resolveWithFallback_all_empty fenv topic now
    (hourWindowReset now (sweepStage cfg del now g0 cache0).2) hpy hgj
  rw [ht, hs]
  simp [fallbackTrends, enrichRecord]

/-- C6 witness: a concrete exhausted fetch chain serves the three fallback
records with 200. -/
theorem claim_C6_witness :
    (get_trends defaultConfig fenvAllEmpty (.ok []) (.ok []) (.ok []) (.ok [])
        "t" "c" 100 (fun s => s) "ts" "d" gIdle (fun _ => none)).status = 200
    ∧ (get_trends defaultConfig fenvAllEmpty (.ok []) (.ok []) (.ok []) (.ok [])
        "t" "c" 100 (fun s => s) "ts" "d" gIdle (fun _ => none)).body
      = Except.ok
          { source := "fallback", topic := "t",
            trend_keywords :=
              (fallbackTrends "t").map
                (enrichRecord defaultConfig "t" "c" "fallback" "ts" "d" (fun s => s)),
            cache_hit := some "fresh", cached_from_db := false,
            timestamp := some "ts" } :=
  ⟨(claim_C6_fallback_on_exhaustion defaultConfig fenvAllEmpty (.ok []) (.ok []) (.ok [])
      (.ok []) "t" "c" 100 (fun s => s) "ts" "d" gIdle (fun _ => none) rfl (by decide)
      (by decide) rfl rfl rfl).1,
   (claim_C6_fallback_on_exhaustion defaultConfig fenvAllEmpty (.ok []) (.ok []) (.ok [])
      (.ok []) "t" "c" 100 (fun s => s) "ts" "d" gIdle (fun _ => none) rfl (by decide)
      (by decide) rfl rfl rfl).2.1⟩

end MGTrends
